import Mathlib

/-!
Shallow embedding of the dbaas-operator reconciliation core
(controllers/opsrequest controller, controllers/databasecluster_controller.go,
pkg/provider/cnpg) for checking the natural-language specification.

Time is modelled in nanoseconds as `Int` (Go `time.Time` / `time.Duration`);
a TTL of `d` seconds is the duration `d * 1000000000` nanoseconds.
Kubernetes client calls are modelled by oracles in an environment record and
by explicit effect traces, so that every pass is a pure function from the
environment to an outcome together with the list of side effects it performed.
-/

namespace DBaaS

/-! ## Data model (api/v1) -/

/-- `OpsRequestPhase` (api/v1/opsrequest_types.go); the Go type is a string
whose zero value `""` is modelled by `unset`. -/
inductive OpsPhase
  | unset
  | pending
  | running
  | succeeded
  | failed
  deriving DecidableEq, Repr

/-- The string rendering of an `OpsRequestPhase` constant. -/
def OpsPhase.str : OpsPhase → String
  | .unset => ""
  | .pending => "Pending"
  | .running => "Running"
  | .succeeded => "Succeeded"
  | .failed => "Failed"

/-- `ActionLogEntry` (api/v1/opsrequest_types.go). -/
structure ActionLogEntry where
  timestamp : Int
  action : String
  status : String
  message : String
  deriving DecidableEq, Repr

/-- `OpsRequestStatus` (api/v1/opsrequest_types.go); `Conditions` entries are
kept opaque as strings since the controller never constructs them. -/
structure OpsRequestStatus where
  conditions : List String
  phase : OpsPhase
  startTime : Option Int
  completionTime : Option Int
  message : String
  actionLog : List ActionLogEntry
  deriving DecidableEq, Repr

/-- `HorizontalScalingSpec`. -/
structure HorizontalScalingSpec where
  replicas : Int
  deriving DecidableEq, Repr

/-- `corev1.ResourceRequirements`, as the assoc lists of rendered quantities. -/
structure ResourceRequirements where
  requests : List (String × String)
  limits : List (String × String)
  deriving DecidableEq, Repr

/-- `VerticalScalingSpec`. -/
structure VerticalScalingSpec where
  resources : ResourceRequirements
  deriving DecidableEq, Repr

/-- `VolumeExpansionSpec`; the `resource.Quantity` is kept in its rendered
string form (the code only ever calls `.String()` on it). -/
structure VolumeExpansionSpec where
  size : String
  deriving DecidableEq, Repr

/-- `ConfigParameter`. -/
structure ConfigParameter where
  name : String
  value : String
  deriving DecidableEq, Repr

/-- `ReconfiguringSpec`. -/
structure ReconfiguringSpec where
  config : List ConfigParameter
  deriving DecidableEq, Repr

/-- `UpgradeSpec`. -/
structure UpgradeSpec where
  targetVersion : String
  deriving DecidableEq, Repr

/-- `BackupRequestSpec`. -/
structure BackupRequestSpec where
  backupName : String
  deriving DecidableEq, Repr

/-- `RestoreRequestSpec`. -/
structure RestoreRequestSpec where
  backupName : String
  pointInTime : Option Int
  deriving DecidableEq, Repr

/-- `SwitchoverSpec`. -/
structure SwitchoverSpec where
  targetInstance : String
  deriving DecidableEq, Repr

/-- `RebuildInstanceSpec`. -/
structure RebuildInstanceSpec where
  instanceName : String
  sourceInstance : String
  deriving DecidableEq, Repr

/-- `CustomOperationSpec`. -/
structure CustomOperationSpec where
  operation : String
  parameters : List (String × String)
  deriving DecidableEq, Repr

/-- `OpsRequestSpec` (api/v1/opsrequest_types.go). `type` is the Go string
`OpsRequestType`; the optional payloads mirror the `*Spec` pointer fields. -/
structure OpsRequestSpec where
  clusterRefName : String
  opType : String
  horizontalScaling : Option HorizontalScalingSpec
  verticalScaling : Option VerticalScalingSpec
  volumeExpansion : Option VolumeExpansionSpec
  reconfiguring : Option ReconfiguringSpec
  upgrade : Option UpgradeSpec
  backup : Option BackupRequestSpec
  restore : Option RestoreRequestSpec
  switchover : Option SwitchoverSpec
  rebuildInstance : Option RebuildInstanceSpec
  custom : Option CustomOperationSpec
  ttlSecondsAfterFinished : Option Int
  deriving DecidableEq, Repr

/-- `OpsRequest` (metadata that the controller reads, plus spec and status). -/
structure OpsRequest where
  name : String
  namespc : String
  spec : OpsRequestSpec
  status : OpsRequestStatus
  deriving DecidableEq, Repr

/-- `ClusterPhase` (api/v1/databaseengine_types.go); a Go string type with
the five declared constants and zero value `""` modelled by `unset`. -/
inductive ClusterPhase
  | unset
  | initializing
  | ready
  | updating
  | failed
  | deleting
  deriving DecidableEq, Repr

/-- `DatabaseEndpoints`. -/
structure DatabaseEndpoints where
  primary : String
  replica : String
  external : String
  deriving DecidableEq, Repr

/-- `DatabaseStatus`. -/
structure DatabaseStatus where
  ready : Bool
  instances : Int
  readyInstances : Int
  primaryInstance : String
  roles : List (String × String)
  endpoints : Option DatabaseEndpoints
  deriving DecidableEq, Repr

/-- `ProxyStatus`. -/
structure ProxyStatus where
  ready : Bool
  replicas : Int
  readyReplicas : Int
  deriving DecidableEq, Repr

/-- `BackupStatus` (only the field the CNPG status mapper writes). -/
structure BackupStatus where
  lastBackupTime : Option Int
  deriving DecidableEq, Repr

/-- `MonitoringStatus`. -/
structure MonitoringStatus where
  enabled : Bool
  ready : Bool
  deriving DecidableEq, Repr

/-- `DatabaseClusterStatus` (api/v1/databaseengine_types.go); condition
entries are kept opaque as their message strings. -/
structure DatabaseClusterStatus where
  conditions : List String
  phase : ClusterPhase
  database : Option DatabaseStatus
  proxy : Option ProxyStatus
  backup : Option BackupStatus
  monitoring : Option MonitoringStatus
  observedGeneration : Int
  message : String
  deriving DecidableEq, Repr

/-- The parts of `DatabaseClusterSpec` that the embedded code reads. -/
structure DatabaseClusterSpec where
  engineType : String
  engineVersion : String
  clusterSize : Int
  backupEnabled : Bool
  monitoringEnabled : Bool
  proxyEnabled : Bool
  proxyReplicas : Int
  dataSourceBackup : Bool
  deriving DecidableEq, Repr

/-- `DatabaseCluster`: metadata the controllers read (finalizers, deletion
timestamp), plus spec and status. -/
structure DatabaseCluster where
  name : String
  namespc : String
  generation : Int
  creationTimestamp : Int
  finalizers : List String
  deletionTimestamp : Option Int
  labels : List (String × String)
  annotations : List (String × String)
  spec : DatabaseClusterSpec
  status : DatabaseClusterStatus
  deriving DecidableEq, Repr

/-! ## Controller-runtime results and client errors -/

/-- The outcome of one reconciliation pass: `done` is `ctrl.Result{}, nil`,
`requeueAfterSec n` is `ctrl.Result{RequeueAfter: n seconds}, nil`,
`failure msg` is a returned non-nil error. -/
inductive Outcome
  | done
  | requeueAfterSec (n : Int)
  | failure (msg : String)
  deriving DecidableEq, Repr

/-- A client `Get` error: `notFound` is the case `errors.IsNotFound(err)`,
`other` is any other (e.g. transient network or conflict) error. -/
inductive FetchErr
  | notFound
  | other (msg : String)
  deriving DecidableEq, Repr

/-- The message carried by a fetch error (`err.Error()` in Go). -/
def FetchErr.msg : FetchErr → String
  | .notFound => "not found"
  | .other m => m

/-! ## Operation dispatch (executeOperation switch) -/

/-- The fourteen delegate operation methods of `provider.OperationsHandler`. -/
inductive OpMethod
  | opStart
  | opStop
  | opRestart
  | opSwitchover
  | opHorizontalScaling
  | opVerticalScaling
  | opVolumeExpansion
  | opReconfigure
  | opUpgrade
  | opBackup
  | opRestore
  | opExpose
  | opRebuildInstance
  | opCustom
  deriving DecidableEq, Repr

/-- The `switch ops.Spec.Type` of `executeOperation` (controllers, ops
reconciler lines 115-148): which delegate method a declared operation type
selects; `none` is the `default` branch (unsupported type). -/
def dispatchMethod (t : String) : Option OpMethod :=
  if t = "Start" then some .opStart
  else if t = "Stop" then some .opStop
  else if t = "Restart" then some .opRestart
  else if t = "Switchover" then some .opSwitchover
  else if t = "HorizontalScaling" then some .opHorizontalScaling
  else if t = "VerticalScaling" then some .opVerticalScaling
  else if t = "VolumeExpansion" then some .opVolumeExpansion
  else if t = "Reconfiguring" then some .opReconfigure
  else if t = "Upgrade" then some .opUpgrade
  else if t = "Backup" then some .opBackup
  else if t = "Restore" then some .opRestore
  else if t = "Expose" then some .opExpose
  else if t = "RebuildInstance" then some .opRebuildInstance
  else if t = "Custom" then some .opCustom
  else none

/-! ## OpsRequest reconciler (controllers, OpsRequestReconciler.Reconcile) -/

/-- One observable side effect of an OpsRequest reconciliation pass:
a status sub-resource write carrying the new status, a deletion of the
record, or the invocation of a delegate operation method. -/
inductive OpsEffect
  | statusWrite (s : OpsRequestStatus)
  | deleteRecord
  | delegateCall (m : OpMethod)
  deriving DecidableEq, Repr

/-- The environment of one OpsRequest pass: the results the Kubernetes
client and the delegate would return at each call site, and the wall clock. -/
structure OpsEnv where
  fetchOps : Except FetchErr OpsRequest
  fetchCluster : Except FetchErr DatabaseCluster
  providerRes : Except String Unit
  dispatchRes : Except String Unit
  getStatusRes : Except String OpsRequestStatus
  updFailedErr : Option String
  updRunningErr : Option String
  updFinalErr : Option String
  deleteErr : Option String
  now : Int
  deriving Repr

/-- `updateStatusFailed` (ops reconciler lines 150-161): set phase Failed,
the message and a completion timestamp on the existing status, then write
the status sub-resource. Returns the outcome and the written status. -/
def updateStatusFailed (now : Int) (updErr : Option String)
    (ops : OpsRequest) (message : String) : Outcome × OpsRequestStatus :=
  let s := { ops.status with
    phase := .failed, message := message, completionTime := some now }
  (match updErr with
   | some e => .failure e
   | none => .done, s)

/-- Whether a phase is terminal (`Succeeded` or `Failed`). -/
def OpsPhase.isTerminal : OpsPhase → Bool
  | .succeeded => true
  | .failed => true
  | _ => false

/-- Whether a phase triggers the transition to Running
(`ops.Status.Phase == "" || ops.Status.Phase == Pending`). -/
def OpsPhase.isStartable : OpsPhase → Bool
  | .unset => true
  | .pending => true
  | _ => false

/-- The terminal branch of the ops reconciler (lines 46-56): when the phase
is already Succeeded or Failed, delete the record when a TTL is configured,
a completion time is recorded, and `time.Since(completionTime) > ttl`;
otherwise do nothing. -/
def opsTerminalBranch (now : Int) (deleteErr : Option String)
    (ops : OpsRequest) : Outcome × List OpsEffect :=
  match ops.spec.ttlSecondsAfterFinished, ops.status.completionTime with
  | some ttl, some t =>
    if now - t > ttl * 1000000000 then
      (match deleteErr with
       | some e => .failure e
       | none => .done, [.deleteRecord])
    else (.done, [])
  | _, _ => (.done, [])

/-- `OpsRequestReconciler.Reconcile` (ops reconciler lines 32-112) as a pure
function from the pass environment to the outcome and the effect trace. -/
def opsReconcile (env : OpsEnv) : Outcome × List OpsEffect :=
  match env.fetchOps with
  | .error .notFound => (.done, [])
  | .error (.other e) => (.failure e, [])
  | .ok ops =>
    if ops.status.phase.isTerminal then
      opsTerminalBranch env.now env.deleteErr ops
    else
      match env.fetchCluster with
      | .error e =>
        let r := updateStatusFailed env.now env.updFailedErr ops
          ("target cluster not found: " ++ e.msg)
        (r.1, [.statusWrite r.2])
      | .ok _ =>
        match env.providerRes with
        | .error e =>
          let r := updateStatusFailed env.now env.updFailedErr ops
            ("unable to get provider: " ++ e)
          (r.1, [.statusWrite r.2])
        | .ok _ =>
          let stamp := ops.status.phase.isStartable
          let ops1 := if stamp then
              { ops with status := { ops.status with
                  phase := .running, startTime := some env.now } }
            else ops
          let pre : List OpsEffect :=
            if stamp then [.statusWrite ops1.status] else []
          match stamp, env.updRunningErr with
          | true, some e => (.failure e, pre)
          | _, _ =>
            match dispatchMethod ops1.spec.opType with
            | none =>
              let r := updateStatusFailed env.now env.updFailedErr ops1
                ("unsupported operation type: " ++ ops1.spec.opType)
              (r.1, pre ++ [.statusWrite r.2])
            | some m =>
              match env.dispatchRes with
              | .error e =>
                let r := updateStatusFailed env.now env.updFailedErr ops1 e
                (r.1, pre ++ [.delegateCall m, .statusWrite r.2])
              | .ok _ =>
                match env.getStatusRes with
                | .error _ =>
                  (.requeueAfterSec 5, pre ++ [.delegateCall m])
                | .ok st =>
                  let effs := pre ++ [.delegateCall m, .statusWrite st]
                  match env.updFinalErr with
                  | some e => (.failure e, effs)
                  | none =>
                    if st.phase = .running then (.requeueAfterSec 5, effs)
                    else (.done, effs)

/-! ## DatabaseCluster reconciler
(controllers/databasecluster_controller.go) -/

/-- `containsString` (databasecluster_controller.go lines 210-217). -/
def containsString : List String → String → Bool
  | [], _ => false
  | x :: xs, s => if x = s then true else containsString xs s

/-- `removeString` (databasecluster_controller.go lines 219-227). -/
def removeString : List String → String → List String
  | [], _ => []
  | x :: xs, s =>
    if x ≠ s then x :: removeString xs s else removeString xs s

/-- The cleanup finalizer literal `"dbaas.io/finalizer"`. -/
def finalizerName : String := "dbaas.io/finalizer"

/-- The eight named steps of `applyTransformations`
(databasecluster_controller.go lines 108-150), in source order. -/
inductive StepName
  | metadata
  | engine
  | proxy
  | monitoring
  | podSchedulingPolicy
  | backup
  | dataSource
  | dataImport
  deriving DecidableEq, Repr

/-- The pipeline order of `applyTransformations`. -/
def pipelineOrder : List StepName :=
  [.metadata, .engine, .proxy, .monitoring, .podSchedulingPolicy,
   .backup, .dataSource, .dataImport]

/-- The wrapping message each failing step produces
(`fmt.Errorf("failed to apply ...: %w", err)`). -/
def stepErrMsg : StepName → String
  | .metadata => "failed to apply metadata: "
  | .engine => "failed to apply engine: "
  | .proxy => "failed to apply proxy: "
  | .monitoring => "failed to apply monitoring: "
  | .podSchedulingPolicy => "failed to apply pod scheduling policy: "
  | .backup => "failed to apply backup: "
  | .dataSource => "failed to apply data source: "
  | .dataImport => "failed to apply data import: "

/-- Run a list of applier steps in order, stopping at the first failure;
returns the overall result and the steps actually invoked.
This is the body shape of `applyTransformations`: each step is invoked only
when every earlier step returned without error. -/
def runSteps (res : StepName → Except String Unit) :
    List StepName → Except String Unit × List StepName
  | [] => (.ok (), [])
  | s :: rest =>
    match res s with
    | .error e => (.error (stepErrMsg s ++ e), [s])
    | .ok _ =>
      let r := runSteps res rest
      (r.1, s :: r.2)

/-- `applyTransformations` (databasecluster_controller.go lines 108-150):
the eight steps in source order, aborting on the first failing step. -/
def applyTransformations (res : StepName → Except String Unit) :
    Except String Unit × List StepName :=
  runSteps res pipelineOrder

/-- A child-record `Create` error: `alreadyExists` is the
`errors.IsAlreadyExists(err)` case, `other` any other error. -/
inductive CreateErr
  | alreadyExists
  | other (msg : String)
  deriving DecidableEq, Repr

/-- One observable side effect of a DatabaseCluster reconciliation pass. -/
inductive ClusterEffect
  | cleanupCall
  | recordUpdate (finalizers : List String)
  | statusWrite (s : DatabaseClusterStatus)
  | childCreate
  | childUpdate
  | stepRun (s : StepName)
  deriving DecidableEq, Repr

/-- The environment of one DatabaseCluster pass: results the client, the
provider factory and the delegate would return at each call site. -/
structure ClusterEnv where
  fetchCluster : Except FetchErr DatabaseCluster
  providerRes : Except String Unit
  preHook : Except String Int
  cleanupRes : Except String Unit
  getApplierRes : Except String Unit
  stepRes : StepName → Except String Unit
  childCreateRes : Except CreateErr Unit
  childUpdateRes : Except String Unit
  statusMapper : Except String DatabaseClusterStatus
  statusUpdateErr : Option String
  recordUpdateErr : Option String

/-- `handleDeletion` (databasecluster_controller.go lines 182-200): when the
cleanup finalizer is present, invoke the delegate's `Cleanup`; only when it
returns without error, remove the finalizer and update the record. When the
finalizer is absent, do nothing. -/
def handleDeletion (env : ClusterEnv) (cluster : DatabaseCluster) :
    Outcome × List ClusterEffect :=
  if containsString cluster.finalizers finalizerName then
    match env.cleanupRes with
    | .error e => (.failure e, [.cleanupCall])
    | .ok _ =>
      let fs := removeString cluster.finalizers finalizerName
      match env.recordUpdateErr with
      | some e => (.failure e, [.cleanupCall, .recordUpdate fs])
      | none => (.done, [.cleanupCall, .recordUpdate fs])
  else (.done, [])

/-- `createOrUpdateChildCluster` (lines 152-168): `Create`; on
already-exists fall back to `Update`. Returns the outcome and the client
calls attempted. -/
def createOrUpdateChildCluster (createRes : Except CreateErr Unit)
    (updateRes : Except String Unit) :
    Except String Unit × List ClusterEffect :=
  match createRes with
  | .ok _ => (.ok (), [.childCreate])
  | .error .alreadyExists =>
    match updateRes with
    | .error e => (.error e, [.childCreate, .childUpdate])
    | .ok _ => (.ok (), [.childCreate, .childUpdate])
  | .error (.other e) => (.error e, [.childCreate])

/-- `updateStatus` (lines 170-179): fetch the delegate-reported status and
replace the request's status sub-resource with it wholesale
(`cluster.Status = *status`). The write carries exactly the mapper output. -/
def updateStatusCluster (mapper : Except String DatabaseClusterStatus)
    (updErr : Option String) : Except String Unit × List ClusterEffect :=
  match mapper with
  | .error e => (.error e, [])
  | .ok s =>
    (match updErr with
     | some e => .error e
     | none => .ok (), [.statusWrite s])

/-- `DatabaseClusterReconciler.Reconcile` (lines 32-105) as a pure function
from the pass environment to the outcome and the effect trace. -/
def clusterReconcile (env : ClusterEnv) : Outcome × List ClusterEffect :=
  match env.fetchCluster with
  | .error .notFound => (.done, [])
  | .error (.other e) => (.failure e, [])
  | .ok cluster =>
    match env.providerRes with
    | .error e => (.failure e, [])
    | .ok _ =>
      match env.preHook with
      | .error e => (.failure e, [])
      | .ok requeueAfter =>
        if requeueAfter > 0 then (.requeueAfterSec requeueAfter, [])
        else if cluster.deletionTimestamp.isSome then
          handleDeletion env cluster
        else
          let needFin := ! containsString cluster.finalizers finalizerName
          let fs1 := cluster.finalizers ++ [finalizerName]
          let pre : List ClusterEffect :=
            if needFin then [.recordUpdate fs1] else []
          match needFin, env.recordUpdateErr with
          | true, some e => (.failure e, pre)
          | _, _ =>
            match env.getApplierRes with
            | .error e => (.failure e, pre)
            | .ok _ =>
              let tr := applyTransformations env.stepRes
              let effs := pre ++ tr.2.map .stepRun
              match tr.1 with
              | .error e => (.failure e, effs)
              | .ok _ =>
                let cu := createOrUpdateChildCluster env.childCreateRes
                  env.childUpdateRes
                let effs := effs ++ cu.2
                match cu.1 with
                | .error e => (.failure e, effs)
                | .ok _ =>
                  let us := updateStatusCluster env.statusMapper
                    env.statusUpdateErr
                  let effs := effs ++ us.2
                  match us.1 with
                  | .error e => (.failure e, effs)
                  | .ok _ => (.requeueAfterSec 30, effs)

/-! ## CNPG child records (the fields the delegate code reads and writes) -/

/-- One entry of the CNPG cluster's `Status.InstancesStatus`. -/
structure CNPGInstanceStatus where
  pod : String
  isPrimary : Bool
  deriving DecidableEq, Repr

/-- The CNPG cluster status fields read by the delegate. -/
structure CNPGClusterStatus where
  phase : String
  instances : Int
  readyInstances : Int
  currentPrimary : String
  instancesStatus : List CNPGInstanceStatus
  firstRecoverabilityPoint : String
  conditions : List String
  deriving DecidableEq, Repr

/-- The CNPG `Spec.Bootstrap` variants written by the delegate. -/
inductive CNPGBootstrap
  | recovery (backupName : String) (recoveryTargetTime : Option String)
  | pgBaseBackup (source : String)
  | initDB (database owner : String)
  deriving DecidableEq, Repr

/-- The CNPG cluster spec fields written by the delegate. -/
structure CNPGClusterSpec where
  instances : Int
  imageName : String
  storageSize : String
  storageClass : Option String
  resources : Option ResourceRequirements
  postgresParameters : List (String × String)
  bootstrap : Option CNPGBootstrap
  deriving DecidableEq, Repr

/-- The CNPG child cluster record. -/
structure CNPGCluster where
  name : String
  namespc : String
  labels : List (String × String)
  annotations : List (String × String)
  spec : CNPGClusterSpec
  status : CNPGClusterStatus
  deriving DecidableEq, Repr

/-- Go map assignment `m[k] = v` on an assoc-list model of a string map. -/
def setKey (m : List (String × String)) (k v : String) :
    List (String × String) :=
  m.filter (fun p => p.1 != k) ++ [(k, v)]

/-- Go `delete(m, k)` on an assoc-list model of a string map. -/
def delKey (m : List (String × String)) (k : String) :
    List (String × String) :=
  m.filter (fun p => p.1 != k)

/-- Abstraction of `time.Now().Format(time.RFC3339)`: an injective rendering
of the clock tick (its exact text never matters to any claim). -/
def rfc3339 (t : Int) : String := "rfc3339:" ++ toString t

/-! ## CNPG status mapping (unnamed/part_003) -/

/-- `mapCNPGPhaseToDBaaSPhase` (part_003 lines 157-169): the lookup table
from the child's free-text phase to the unified `ClusterPhase`. -/
def mapCNPGPhaseToDBaaSPhase (cnpgPhase : String) : ClusterPhase :=
  if cnpgPhase = "Cluster in healthy state" then .ready
  else if cnpgPhase = "Creating primary instance" then .initializing
  else if cnpgPhase = "Upgrading cluster" then .updating
  else .initializing

/-- The phase computed by `CNPGProvider.Status` (part_003 lines 51-56):
an empty child phase maps to Initializing, any other goes through the
lookup table. -/
def cnpgStatusPhase (cnpgPhase : String) : ClusterPhase :=
  if cnpgPhase = "" then .initializing
  else mapCNPGPhaseToDBaaSPhase cnpgPhase

/-- `CNPGProvider.Status` (part_003 lines 36-113): build the full unified
status record from the fetched child record; a fetch error is returned as
an error (the controller pass then aborts without a status write). -/
def cnpgStatus (cluster : DatabaseCluster)
    (fetch : Except FetchErr CNPGCluster) :
    Except FetchErr DatabaseClusterStatus :=
  match fetch with
  | .error e => .error e
  | .ok c =>
    let roles := c.status.instancesStatus.map
      (fun i => (i.pod, if i.isPrimary then "primary" else "replica"))
    .ok {
      conditions := []
      phase := cnpgStatusPhase c.status.phase
      database := some {
        ready := c.status.phase = "Cluster in healthy state"
        instances := c.status.instances
        readyInstances := c.status.readyInstances
        primaryInstance := c.status.currentPrimary
        roles := roles
        endpoints := some {
          primary :=
            cluster.name ++ "-rw." ++ cluster.namespc ++ ".svc.cluster.local"
          replica :=
            cluster.name ++ "-ro." ++ cluster.namespc ++ ".svc.cluster.local"
          external := "" } }
      proxy :=
        if cluster.spec.proxyEnabled then
          some { ready := true
                 replicas := cluster.spec.proxyReplicas
                 readyReplicas := cluster.spec.proxyReplicas }
        else none
      backup :=
        if cluster.spec.backupEnabled then
          some { lastBackupTime :=
            if c.status.firstRecoverabilityPoint ≠ "" then
              some cluster.creationTimestamp
            else none }
        else none
      monitoring :=
        if cluster.spec.monitoringEnabled then
          some { enabled := true, ready := true }
        else none
      observedGeneration := cluster.generation
      message :=
        match c.status.conditions with
        | m :: _ => m
        | [] => "" }

/-- `CNPGOperationsHandler.GetStatus` (operations.go lines 285-315): always
returns a status (never an error). A child fetch failure yields phase
Failed with the fetch error as message and an empty action log; otherwise
phase Succeeded with a completion time when the child is healthy, else
Running, and the action log is replaced by exactly one fresh entry. -/
def cnpgGetStatus (fetch : Except FetchErr CNPGCluster) (opsType : String)
    (now : Int) : OpsRequestStatus :=
  match fetch with
  | .error e =>
    { conditions := [], phase := .failed, startTime := none,
      completionTime := none, message := e.msg, actionLog := [] }
  | .ok c =>
    let healthy := c.status.phase = "Cluster in healthy state"
    let phase : OpsPhase := if healthy then .succeeded else .running
    { conditions := []
      phase := phase
      startTime := none
      completionTime := if healthy then some now else none
      message := ""
      actionLog := [{ timestamp := now, action := opsType,
                      status := phase.str, message := c.status.phase }] }

/-! ## CNPG operations handler (pkg/provider/cnpg/operations.go) -/

/-- A call the operations handler makes into the child system. -/
inductive ClientCall
  | getCluster
  | updateCluster (c : CNPGCluster)
  | createBackup (name namespc clusterName : String)
  deriving DecidableEq, Repr

/-- The child-system call-site results available to one handler method. -/
structure ChildCtx where
  fetch : Except FetchErr CNPGCluster
  updateErr : Option String
  createErr : Option String
  now : Int
  deriving Repr

/-- The result of a client `Update`/`Create` given its error oracle. -/
def updRes (err : Option String) : Except String Unit :=
  match err with
  | some e => .error e
  | none => .ok ()

/-- The fetch-mutate-update shape shared by most handler methods: `Get` the
child cluster, apply `f`, `Update` it. -/
def fetchMutateUpdate (ctx : ChildCtx) (f : CNPGCluster → CNPGCluster) :
    Except String Unit × List ClientCall :=
  match ctx.fetch with
  | .error e => (.error e.msg, [.getCluster])
  | .ok c =>
    let c1 := f c
    (updRes ctx.updateErr, [.getCluster, .updateCluster c1])

/-- `Start` (operations.go lines 32-44): remove the hibernation marker. -/
def cnpgStart (_cluster : DatabaseCluster) (_ops : OpsRequest)
    (ctx : ChildCtx) : Except String Unit × List ClientCall :=
  fetchMutateUpdate ctx (fun c =>
    { c with annotations := delKey c.annotations "cnpg.io/hibernation" })

/-- `Stop` (lines 47-60): set the hibernation marker. -/
def cnpgStop (_cluster : DatabaseCluster) (_ops : OpsRequest)
    (ctx : ChildCtx) : Except String Unit × List ClientCall :=
  fetchMutateUpdate ctx (fun c =>
    { c with annotations := setKey c.annotations "cnpg.io/hibernation" "on" })

/-- `Restart` (lines 63-76): stamp the restartedAt marker. -/
def cnpgRestart (_cluster : DatabaseCluster) (_ops : OpsRequest)
    (ctx : ChildCtx) : Except String Unit × List ClientCall :=
  fetchMutateUpdate ctx (fun c =>
    { c with annotations :=
        setKey c.annotations "cnpg.io/restartedAt" (rfc3339 ctx.now) })

/-- `Switchover` (lines 79-100): requires the switchover payload, then
stamps the forceSwitchover marker (and the target when given). -/
def cnpgSwitchover (_cluster : DatabaseCluster) (ops : OpsRequest)
    (ctx : ChildCtx) : Except String Unit × List ClientCall :=
  match ops.spec.switchover with
  | none => (.error "switchover spec is required", [])
  | some sw =>
    fetchMutateUpdate ctx (fun c =>
      let a := setKey c.annotations "cnpg.io/forceSwitchover"
        (rfc3339 ctx.now)
      let a := if sw.targetInstance ≠ "" then
          setKey a "cnpg.io/switchoverTarget" sw.targetInstance
        else a
      { c with annotations := a })

/-- `HorizontalScaling` (lines 103-117): requires the payload, then sets the
child's instance count. -/
def cnpgHorizontalScaling (_cluster : DatabaseCluster) (ops : OpsRequest)
    (ctx : ChildCtx) : Except String Unit × List ClientCall :=
  match ops.spec.horizontalScaling with
  | none => (.error "horizontalScaling spec is required", [])
  | some hs =>
    fetchMutateUpdate ctx (fun c =>
      { c with spec := { c.spec with instances := hs.replicas } })

/-- `VerticalScaling` (lines 120-134): requires the payload, then sets the
child's resource requirements. -/
def cnpgVerticalScaling (_cluster : DatabaseCluster) (ops : OpsRequest)
    (ctx : ChildCtx) : Except String Unit × List ClientCall :=
  match ops.spec.verticalScaling with
  | none => (.error "verticalScaling spec is required", [])
  | some vs =>
    fetchMutateUpdate ctx (fun c =>
      { c with spec := { c.spec with resources := some vs.resources } })

/-- `VolumeExpansion` (lines 137-151): requires the payload, then sets the
child's storage size. -/
def cnpgVolumeExpansion (_cluster : DatabaseCluster) (ops : OpsRequest)
    (ctx : ChildCtx) : Except String Unit × List ClientCall :=
  match ops.spec.volumeExpansion with
  | none => (.error "volumeExpansion spec is required", [])
  | some ve =>
    fetchMutateUpdate ctx (fun c =>
      { c with spec := { c.spec with storageSize := ve.size } })

/-- `Reconfigure` (lines 154-174): requires the payload, then merges each
parameter into the child's PostgreSQL configuration. -/
def cnpgReconfigure (_cluster : DatabaseCluster) (ops : OpsRequest)
    (ctx : ChildCtx) : Except String Unit × List ClientCall :=
  match ops.spec.reconfiguring with
  | none => (.error "reconfiguring spec is required", [])
  | some rc =>
    fetchMutateUpdate ctx (fun c =>
      { c with spec := { c.spec with
          postgresParameters := rc.config.foldl
            (fun m cfg => setKey m cfg.name cfg.value)
            c.spec.postgresParameters } })

/-- `Upgrade` (lines 177-191): requires the payload, then sets the child's
image name from the target version. -/
def cnpgUpgrade (_cluster : DatabaseCluster) (ops : OpsRequest)
    (ctx : ChildCtx) : Except String Unit × List ClientCall :=
  match ops.spec.upgrade with
  | none => (.error "upgrade spec is required", [])
  | some up =>
    fetchMutateUpdate ctx (fun c =>
      { c with spec := { c.spec with imageName :=
          "ghcr.io/cloudnative-pg/postgresql:" ++ up.targetVersion } })

/-- `Backup` (lines 194-214): create a separate child backup record named
per the payload, defaulting to the operation's own name; no payload is
required and the child cluster record is not touched. -/
def cnpgBackup (cluster : DatabaseCluster) (ops : OpsRequest)
    (ctx : ChildCtx) : Except String Unit × List ClientCall :=
  let backupName :=
    match ops.spec.backup with
    | some b => if b.backupName ≠ "" then b.backupName else ops.name
    | none => ops.name
  (updRes ctx.createErr,
   [.createBackup backupName cluster.namespc cluster.name])

/-- `Restore` (lines 217-244): requires the payload, then sets the child's
bootstrap to recovery from the named backup (with the PITR target when
given). -/
def cnpgRestore (_cluster : DatabaseCluster) (ops : OpsRequest)
    (ctx : ChildCtx) : Except String Unit × List ClientCall :=
  match ops.spec.restore with
  | none => (.error "restore spec is required", [])
  | some rs =>
    fetchMutateUpdate ctx (fun c =>
      { c with spec := { c.spec with
          bootstrap := some
            (.recovery rs.backupName (rs.pointInTime.map rfc3339)) } })

/-- `Expose` (lines 247-252): a no-op that always succeeds. -/
def cnpgExpose (_cluster : DatabaseCluster) (_ops : OpsRequest)
    (_ctx : ChildCtx) : Except String Unit × List ClientCall :=
  (.ok (), [])

/-- `RebuildInstance` (lines 255-272): requires the payload, then stamps the
rebuildInstance marker with the instance name. -/
def cnpgRebuildInstance (_cluster : DatabaseCluster) (ops : OpsRequest)
    (ctx : ChildCtx) : Except String Unit × List ClientCall :=
  match ops.spec.rebuildInstance with
  | none => (.error "rebuildInstance spec is required", [])
  | some ri =>
    fetchMutateUpdate ctx (fun c =>
      { c with annotations :=
          setKey c.annotations "cnpg.io/rebuildInstance" ri.instanceName })

/-- `Custom` (lines 275-282): requires the payload, then always fails as
not implemented; never touches the child system. -/
def cnpgCustom (_cluster : DatabaseCluster) (ops : OpsRequest)
    (_ctx : ChildCtx) : Except String Unit × List ClientCall :=
  match ops.spec.custom with
  | none => (.error "custom spec is required", [])
  | some cu =>
    (.error ("custom operation " ++ cu.operation ++ " not implemented"), [])

/-- Run the CNPG handler method selected by the dispatcher. -/
def cnpgRunOp (m : OpMethod) (cluster : DatabaseCluster) (ops : OpsRequest)
    (ctx : ChildCtx) : Except String Unit × List ClientCall :=
  match m with
  | .opStart => cnpgStart cluster ops ctx
  | .opStop => cnpgStop cluster ops ctx
  | .opRestart => cnpgRestart cluster ops ctx
  | .opSwitchover => cnpgSwitchover cluster ops ctx
  | .opHorizontalScaling => cnpgHorizontalScaling cluster ops ctx
  | .opVerticalScaling => cnpgVerticalScaling cluster ops ctx
  | .opVolumeExpansion => cnpgVolumeExpansion cluster ops ctx
  | .opReconfigure => cnpgReconfigure cluster ops ctx
  | .opUpgrade => cnpgUpgrade cluster ops ctx
  | .opBackup => cnpgBackup cluster ops ctx
  | .opRestore => cnpgRestore cluster ops ctx
  | .opExpose => cnpgExpose cluster ops ctx
  | .opRebuildInstance => cnpgRebuildInstance cluster ops ctx
  | .opCustom => cnpgCustom cluster ops ctx

/-- Which methods begin with a nil-check on their typed payload
(read off the guards in operations.go). -/
def requiresPayload : OpMethod → Bool
  | .opSwitchover => true
  | .opHorizontalScaling => true
  | .opVerticalScaling => true
  | .opVolumeExpansion => true
  | .opReconfigure => true
  | .opUpgrade => true
  | .opRestore => true
  | .opRebuildInstance => true
  | .opCustom => true
  | _ => false

/-- Whether the payload field a method guards on is present in the spec. -/
def payloadPresent (spec : OpsRequestSpec) : OpMethod → Bool
  | .opSwitchover => spec.switchover.isSome
  | .opHorizontalScaling => spec.horizontalScaling.isSome
  | .opVerticalScaling => spec.verticalScaling.isSome
  | .opVolumeExpansion => spec.volumeExpansion.isSome
  | .opReconfigure => spec.reconfiguring.isSome
  | .opUpgrade => spec.upgrade.isSome
  | .opRestore => spec.restore.isSome
  | .opRebuildInstance => spec.rebuildInstance.isSome
  | .opCustom => spec.custom.isSome
  | _ => true

/-- The error message each payload guard produces. -/
def payloadErrMsg : OpMethod → String
  | .opSwitchover => "switchover spec is required"
  | .opHorizontalScaling => "horizontalScaling spec is required"
  | .opVerticalScaling => "verticalScaling spec is required"
  | .opVolumeExpansion => "volumeExpansion spec is required"
  | .opReconfigure => "reconfiguring spec is required"
  | .opUpgrade => "upgrade spec is required"
  | .opRestore => "restore spec is required"
  | .opRebuildInstance => "rebuildInstance spec is required"
  | .opCustom => "custom spec is required"
  | _ => ""

/-! ## Concrete fixtures used by witnesses and counterexamples -/

/-- A zero-valued `OpsRequestStatus` (Go zero value of the struct). -/
def emptyOpsStatus : OpsRequestStatus :=
  { conditions := [], phase := .unset, startTime := none,
    completionTime := none, message := "", actionLog := [] }

/-- A minimal ops spec for a `Restart` operation with no payloads. -/
def baseOpsSpec : OpsRequestSpec :=
  { clusterRefName := "pg-demo", opType := "Restart",
    horizontalScaling := none, verticalScaling := none,
    volumeExpansion := none, reconfiguring := none, upgrade := none,
    backup := none, restore := none, switchover := none,
    rebuildInstance := none, custom := none,
    ttlSecondsAfterFinished := none }

/-- A zero-valued `DatabaseClusterStatus`. -/
def baseClusterStatus : DatabaseClusterStatus :=
  { conditions := [], phase := .unset, database := none, proxy := none,
    backup := none, monitoring := none, observedGeneration := 0,
    message := "" }

/-- A minimal cluster spec for a 3-replica PostgreSQL cluster. -/
def baseClusterSpec : DatabaseClusterSpec :=
  { engineType := "postgresql", engineVersion := "16", clusterSize := 3,
    backupEnabled := false, monitoringEnabled := false,
    proxyEnabled := false, proxyReplicas := 0, dataSourceBackup := false }

/-- A minimal live `DatabaseCluster` record. -/
def baseCluster : DatabaseCluster :=
  { name := "pg-demo", namespc := "default", generation := 1,
    creationTimestamp := 0, finalizers := [], deletionTimestamp := none,
    labels := [], annotations := [], spec := baseClusterSpec,
    status := baseClusterStatus }

/-! ## C8: the status-mapping lookup table -/

/-- **C8**: for every child-reported phase string, the reference delegate's
phase lookup maps "Cluster in healthy state" to Ready, "Creating primary
instance" to Initializing, "Upgrading cluster" to Updating, and every other
string (the empty string included) to Initializing — never to Ready or
Failed — and the `Status` wrapper's empty-phase case agrees with the
table. -/
theorem c8_phase_lookup (s : String)
    (h1 : s ≠ "Cluster in healthy state")
    (h2 : s ≠ "Creating primary instance")
    (h3 : s ≠ "Upgrading cluster") :
    mapCNPGPhaseToDBaaSPhase "Cluster in healthy state" = .ready ∧
    mapCNPGPhaseToDBaaSPhase "Creating primary instance" = .initializing ∧
    mapCNPGPhaseToDBaaSPhase "Upgrading cluster" = .updating ∧
    mapCNPGPhaseToDBaaSPhase s = .initializing ∧
    mapCNPGPhaseToDBaaSPhase s ≠ .ready ∧
    mapCNPGPhaseToDBaaSPhase s ≠ .failed ∧
    (∀ r : String, mapCNPGPhaseToDBaaSPhase r ≠ .failed) ∧
    (∀ r : String, cnpgStatusPhase r = mapCNPGPhaseToDBaaSPhase r) := by
  refine ⟨rfl, rfl, rfl, ?_, ?_, ?_, ?_, ?_⟩
  · simp [mapCNPGPhaseToDBaaSPhase, h1, h2, h3]
  · simp [mapCNPGPhaseToDBaaSPhase, h1, h2, h3]
  · simp [mapCNPGPhaseToDBaaSPhase, h1, h2, h3]
  · intro r
    unfold mapCNPGPhaseToDBaaSPhase
    split_ifs <;> simp
  · intro r
    unfold cnpgStatusPhase
    by_cases hr : r = ""
    · subst hr; rfl
    · rw [if_neg hr]

/-- Witness for C8: a phase string outside the table maps to Initializing. -/
theorem c8_phase_lookup_witness :
    mapCNPGPhaseToDBaaSPhase "Setting up primary" = .initializing :=
  (c8_phase_lookup "Setting up primary"
    (by decide) (by decide) (by decide)).2.2.2.1

/-! ## C6: TTL boundary for terminal OpsRequests -/

/-- **C6**: for an OpsRequest in a terminal phase with completion time `t`
nanoseconds and configured TTL `d` seconds, a reconciliation pass at time
`now` deletes the record if and only if `now - t` exceeds `d` seconds; when
`now` is at or before `t + d` the record is left untouched (the pass
performs no effect at all). -/
theorem c6_ttl_boundary (env : OpsEnv) (ops : OpsRequest) (d t : Int)
    (hf : env.fetchOps = .ok ops)
    (ht : ops.status.phase.isTerminal = true)
    (hd : ops.spec.ttlSecondsAfterFinished = some d)
    (hct : ops.status.completionTime = some t) :
    (OpsEffect.deleteRecord ∈ (opsReconcile env).2 ↔
      env.now - t > d * 1000000000) ∧
    (env.now ≤ t + d * 1000000000 → opsReconcile env = (.done, [])) := by
  have hr : opsReconcile env = opsTerminalBranch env.now env.deleteErr ops := by
    simp [opsReconcile, hf, ht]
  rw [hr]
  unfold opsTerminalBranch
  rw [hd, hct]
  constructor
  · by_cases hgt : env.now - t > d * 1000000000
    · simp only [if_pos hgt]
      cases env.deleteErr <;> simp [hgt]
    · simp [hgt]
  · intro hle
    have hng : ¬ env.now - t > d * 1000000000 := by omega
    simp [hng]

/-- A terminal OpsRequest with TTL 10 s and completion time 0, for the C6
witness. -/
def c6Ops : OpsRequest :=
  { name := "ops-ttl"
    namespc := "default"
    spec := { baseOpsSpec with ttlSecondsAfterFinished := some 10 }
    status := { emptyOpsStatus with
      phase := .succeeded
      completionTime := some 0 } }

/-- A pass over `c6Ops` one nanosecond past the TTL boundary. -/
def c6Env : OpsEnv :=
  { fetchOps := .ok c6Ops, fetchCluster := .error .notFound,
    providerRes := .ok (), dispatchRes := .ok (),
    getStatusRes := .error "unused", updFailedErr := none,
    updRunningErr := none, updFinalErr := none, deleteErr := none,
    now := 10000000001 }

/-- Witness for C6: one nanosecond past `t + d` the record is deleted. -/
theorem c6_ttl_boundary_witness :
    OpsEffect.deleteRecord ∈ (opsReconcile c6Env).2 :=
  (c6_ttl_boundary c6Env c6Ops 10 0 rfl rfl rfl rfl).1.mpr (by decide)

/-! ## C10: any cluster-fetch error is terminal for the operation -/

/-- **C10**: in the Operation Controller, any error fetching the referenced
DatabaseCluster — transient errors included, not only not-found — moves a
non-terminal OpsRequest to phase Failed with a message containing the fetch
error and a completion timestamp; when the status write goes through, the
pass ends without retry. -/
theorem c10_cluster_fetch_error_terminal (env : OpsEnv) (ops : OpsRequest)
    (e : FetchErr)
    (hf : env.fetchOps = .ok ops)
    (ht : ops.status.phase.isTerminal = false)
    (hc : env.fetchCluster = .error e) :
    (opsReconcile env).2 = [.statusWrite { ops.status with
      phase := .failed,
      message := "target cluster not found: " ++ e.msg,
      completionTime := some env.now }] ∧
    (env.updFailedErr = none → (opsReconcile env).1 = .done) := by
  constructor
  · simp [opsReconcile, hf, ht, hc, updateStatusFailed]
  · intro hu
    simp [opsReconcile, hf, ht, hc, updateStatusFailed, hu]

/-- A pending OpsRequest whose cluster fetch fails with a transient network
error, for the C10 witness. -/
def c10Ops : OpsRequest :=
  { name := "ops-fetch", namespc := "default", spec := baseOpsSpec,
    status := { emptyOpsStatus with phase := .pending } }

/-- A pass over `c10Ops` in which the cluster fetch fails transiently. -/
def c10Env : OpsEnv :=
  { fetchOps := .ok c10Ops,
    fetchCluster := .error (.other "connection refused"),
    providerRes := .ok (), dispatchRes := .ok (),
    getStatusRes := .error "unused", updFailedErr := none,
    updRunningErr := none, updFinalErr := none, deleteErr := none,
    now := 7 }

/-- Witness for C10: a transient cluster-fetch error writes phase Failed. -/
theorem c10_cluster_fetch_error_terminal_witness :
    (opsReconcile c10Env).2 = [.statusWrite { c10Ops.status with
      phase := .failed,
      message := "target cluster not found: connection refused",
      completionTime := some 7 }] :=
  (c10_cluster_fetch_error_terminal c10Env c10Ops
    (.other "connection refused") rfl rfl rfl).1

/-! ## C2: terminal OpsRequests are inert -/

/-- **C2**: a pass over an OpsRequest whose phase is already Succeeded or
Failed performs no status write and no delegate call; its only possible
effect is deleting the record, and that happens only when a TTL is
configured, a completion time is recorded and the TTL has expired. The CNPG
delegate's status poll only ever reports Running, Succeeded or Failed, so
controller-written phases never move back to Pending: the phase sequence of
a record stays a subsequence of Pending, Running, {Succeeded | Failed}. -/
theorem c2_terminal_inert (env : OpsEnv) (ops : OpsRequest)
    (hf : env.fetchOps = .ok ops)
    (ht : ops.status.phase.isTerminal = true) :
    (∀ s, OpsEffect.statusWrite s ∉ (opsReconcile env).2) ∧
    (∀ m, OpsEffect.delegateCall m ∉ (opsReconcile env).2) ∧
    ((opsReconcile env).2 = [] ∨ (opsReconcile env).2 = [.deleteRecord]) ∧
    ((opsReconcile env).2 = [.deleteRecord] →
      ∃ d t, ops.spec.ttlSecondsAfterFinished = some d ∧
        ops.status.completionTime = some t ∧
        env.now - t > d * 1000000000) ∧
    (∀ fetch t now, (cnpgGetStatus fetch t now).phase ≠ .pending ∧
      (cnpgGetStatus fetch t now).phase ≠ .unset) := by
  have hr : opsReconcile env = opsTerminalBranch env.now env.deleteErr ops := by
    simp [opsReconcile, hf, ht]
  have key : (opsReconcile env).2 = [] ∨
      ((opsReconcile env).2 = [.deleteRecord] ∧
       ∃ d t, ops.spec.ttlSecondsAfterFinished = some d ∧
         ops.status.completionTime = some t ∧
         env.now - t > d * 1000000000) := by
    rw [hr]; unfold opsTerminalBranch
    cases hd : ops.spec.ttlSecondsAfterFinished with
    | none => left; rfl
    | some d =>
      cases hc : ops.status.completionTime with
      | none => left; rfl
      | some t =>
        by_cases hgt : env.now - t > d * 1000000000
        · right
          refine ⟨?_, d, t, rfl, rfl, hgt⟩
          simp only [if_pos hgt]
        · left; simp [hgt]
  refine ⟨?_, ?_, ?_, ?_, ?_⟩
  · intro s hs
    rcases key with h | ⟨h, _⟩ <;> rw [h] at hs <;> simp at hs
  · intro m hm
    rcases key with h | ⟨h, _⟩ <;> rw [h] at hm <;> simp at hm
  · rcases key with h | ⟨h, _⟩
    · exact Or.inl h
    · exact Or.inr h
  · intro hdel
    rcases key with h | ⟨_, hex⟩
    · rw [h] at hdel; simp at hdel
    · exact hex
  · intro fetch t now
    cases fetch with
    | error e => exact ⟨by simp [cnpgGetStatus], by simp [cnpgGetStatus]⟩
    | ok c =>
      unfold cnpgGetStatus
      by_cases hh : c.status.phase = "Cluster in healthy state" <;>
        simp [hh]

/-- A failed OpsRequest with no TTL, for the C2 witness. -/
def c2Ops : OpsRequest :=
  { name := "ops-done", namespc := "default", spec := baseOpsSpec,
    status := { emptyOpsStatus with phase := .failed } }

/-- A pass over the terminal `c2Ops`. -/
def c2Env : OpsEnv :=
  { fetchOps := .ok c2Ops, fetchCluster := .ok baseCluster,
    providerRes := .ok (), dispatchRes := .ok (),
    getStatusRes := .error "unused", updFailedErr := none,
    updRunningErr := none, updFinalErr := none, deleteErr := none,
    now := 42 }

/-- Witness for C2: a pass over a Failed record writes no status. -/
theorem c2_terminal_inert_witness :
    OpsEffect.statusWrite emptyOpsStatus ∉ (opsReconcile c2Env).2 :=
  (c2_terminal_inert c2Env c2Ops rfl rfl).1 emptyOpsStatus

/-! ## C7: status-fetch failure after a successful dispatch -/

/-- A pending OpsRequest about to be dispatched, for the C7 counterexample. -/
def c7Ops : OpsRequest :=
  { name := "ops-poll", namespc := "default", spec := baseOpsSpec,
    status := { emptyOpsStatus with phase := .pending } }

/-- A pass over `c7Ops` in which the dispatch succeeds but the status fetch
fails. -/
def c7Env : OpsEnv :=
  { fetchOps := .ok c7Ops, fetchCluster := .ok baseCluster,
    providerRes := .ok (), dispatchRes := .ok (),
    getStatusRes := .error "connection refused", updFailedErr := none,
    updRunningErr := none, updFinalErr := none, deleteErr := none,
    now := 1000 }

/-- **C7 counterexample**: a pass whose status fetch fails after a
successful dispatch can still change the record's phase: entering at
Pending, the pass has already written the Pending-to-Running transition
before dispatching, so "the record's phase is not changed by that pass" is
false as stated. -/
theorem c7_counterexample :
    c7Ops.status.phase = .pending ∧
    OpsEffect.statusWrite
        { c7Ops.status with phase := .running, startTime := some 1000 }
      ∈ (opsReconcile c7Env).2 ∧
    (OpsPhase.running ≠ c7Ops.status.phase) ∧
    (opsReconcile c7Env).1 = .requeueAfterSec 5 := by decide

/-- **C7 (amended)**: a failure to fetch the operation's status after a
successful dispatch is transient: the pass requeues after 5 seconds and
performs no status write after the failure — in particular the phase is
never moved to Failed because status could not be fetched. The only phase
write such a pass can contain is the pre-dispatch transition of an
empty/Pending phase to Running. -/
theorem c7_amended (env : OpsEnv) (ops : OpsRequest) (m : OpMethod)
    (c : DatabaseCluster) (g : String)
    (hf : env.fetchOps = .ok ops)
    (ht : ops.status.phase.isTerminal = false)
    (hc : env.fetchCluster = .ok c)
    (hp : env.providerRes = .ok ())
    (hr : env.updRunningErr = none)
    (hm : dispatchMethod ops.spec.opType = some m)
    (hd : env.dispatchRes = .ok ())
    (hg : env.getStatusRes = .error g) :
    opsReconcile env = (.requeueAfterSec 5,
      (if ops.status.phase.isStartable then
        [OpsEffect.statusWrite { ops.status with
          phase := .running, startTime := some env.now }]
       else []) ++ [.delegateCall m]) ∧
    (∀ s, OpsEffect.statusWrite s ∈ (opsReconcile env).2 →
      s.phase = .running ∧ ops.status.phase.isStartable = true) := by
  have main : opsReconcile env = (.requeueAfterSec 5,
      (if ops.status.phase.isStartable then
        [OpsEffect.statusWrite { ops.status with
          phase := .running, startTime := some env.now }]
       else []) ++ [.delegateCall m]) := by
    cases hst : ops.status.phase.isStartable <;>
      simp [opsReconcile, hf, ht, hc, hp, hr, hst, hm, hd, hg]
  refine ⟨main, ?_⟩
  intro s hs
  rw [main] at hs
  cases hst : ops.status.phase.isStartable <;> rw [hst] at hs <;>
    simp at hs
  exact ⟨by simp [hs], rfl⟩

/-- Witness for C7 (amended): the concrete fetch-failure pass requeues and
its only status write is the Running stamp. -/
theorem c7_amended_witness :
    opsReconcile c7Env = (.requeueAfterSec 5,
      [OpsEffect.statusWrite { c7Ops.status with
          phase := .running, startTime := some 1000 },
       .delegateCall .opRestart]) :=
  (c7_amended c7Env c7Ops .opRestart baseCluster "connection refused"
    rfl rfl rfl rfl rfl rfl rfl rfl).1

/-! ## C9: the action log is replaced, not appended to -/

/-- An action-log entry recorded by an earlier pass. -/
def c9PrevEntry : ActionLogEntry :=
  { timestamp := 500, action := "Stop", status := "Succeeded",
    message := "old" }

/-- A running OpsRequest carrying one previously recorded log entry. -/
def c9Ops : OpsRequest :=
  { name := "ops-log"
    namespc := "default"
    spec := baseOpsSpec
    status := { emptyOpsStatus with
      phase := .running
      startTime := some 400
      actionLog := [c9PrevEntry] } }

/-- A healthy CNPG child record. -/
def c9Child : CNPGCluster :=
  { name := "pg-demo"
    namespc := "default"
    labels := []
    annotations := []
    spec := { instances := 3, imageName := "", storageSize := "10Gi",
              storageClass := none, resources := none,
              postgresParameters := [], bootstrap := none }
    status := { phase := "Cluster in healthy state", instances := 3,
                readyInstances := 3, currentPrimary := "pg-demo-1",
                instancesStatus := [], firstRecoverabilityPoint := "",
                conditions := [] } }

/-- The status the CNPG delegate reports for `c9Ops` against `c9Child`. -/
def c9Status : OpsRequestStatus := cnpgGetStatus (.ok c9Child) "Restart" 1000

/-- A pass over `c9Ops` whose status poll reports `c9Status`. -/
def c9Env : OpsEnv :=
  { fetchOps := .ok c9Ops, fetchCluster := .ok baseCluster,
    providerRes := .ok (), dispatchRes := .ok (),
    getStatusRes := .ok c9Status, updFailedErr := none,
    updRunningErr := none, updFinalErr := none, deleteErr := none,
    now := 1000 }

/-- **C9 counterexample**: a status write performed by a reconciliation
pass does not preserve a previously recorded action-log entry: the entry
recorded by the earlier pass is absent from the written log, which contains
exactly one fresh entry. -/
theorem c9_counterexample :
    c9PrevEntry ∈ c9Ops.status.actionLog ∧
    OpsEffect.statusWrite c9Status ∈ (opsReconcile c9Env).2 ∧
    c9PrevEntry ∉ c9Status.actionLog ∧
    c9Status.actionLog.length = 1 := by decide

/-- **C9 (amended)**: the action log is not append-only: each successful
status poll of the CNPG delegate returns a log of exactly one fresh entry
describing the current poll (action = the operation type, status = the
reported phase, message = the child's phase), and the controller's
wholesale status overwrite installs it, discarding previously recorded
entries. -/
theorem c9_amended (fetch : Except FetchErr CNPGCluster) (c : CNPGCluster)
    (t : String) (now : Int) (h : fetch = .ok c) :
    (cnpgGetStatus fetch t now).actionLog =
      [{ timestamp := now, action := t,
         status := (cnpgGetStatus fetch t now).phase.str,
         message := c.status.phase }] ∧
    (cnpgGetStatus fetch t now).actionLog.length = 1 := by
  subst h
  unfold cnpgGetStatus
  by_cases hh : c.status.phase = "Cluster in healthy state" <;>
    simp [hh, OpsPhase.str]

/-- Witness for C9 (amended): the concrete poll's log has exactly one
entry. -/
theorem c9_amended_witness :
    (cnpgGetStatus (.ok c9Child) "Restart" 1000).actionLog.length = 1 :=
  (c9_amended (.ok c9Child) c9Child "Restart" 1000 rfl).2

/-! ## C3: exactly-one dispatch and payload fail-fast -/

/-- The fourteen recognized operation-type strings, in dispatch order. -/
def knownOpTypes : List String :=
  ["Start", "Stop", "Restart", "Switchover", "HorizontalScaling",
   "VerticalScaling", "VolumeExpansion", "Reconfiguring", "Upgrade",
   "Backup", "Restore", "Expose", "RebuildInstance", "Custom"]

/-- A type outside the fourteen recognized strings falls through every
comparison of the dispatch switch to the default branch. -/
theorem dispatchMethod_unknown (t : String) (hu : t ∉ knownOpTypes) :
    dispatchMethod t = none := by
  simp only [knownOpTypes, List.mem_cons, List.mem_singleton, not_or] at hu
  obtain ⟨h1, h2, h3, h4, h5, h6, h7, h8, h9, h10, h11, h12, h13, h14⟩ := hu
  simp [dispatchMethod, h1, h2, h3, h4, h5, h6, h7, h8, h9, h10, h11,
    h12, h13, h14]

/-- **C3**: dispatch selects exactly the delegate method matching the
declared operation type for each of the fourteen types; an unrecognized
type makes the pass a terminal failure (a Failed status write naming the
unsupported type, with no delegate method invoked); and every
payload-guarded CNPG method, given an absent payload, fails fast with its
guard's error before any child-system call, leaving the child record
untouched. -/
theorem c3_dispatch :
    (dispatchMethod "Start" = some .opStart ∧
     dispatchMethod "Stop" = some .opStop ∧
     dispatchMethod "Restart" = some .opRestart ∧
     dispatchMethod "Switchover" = some .opSwitchover ∧
     dispatchMethod "HorizontalScaling" = some .opHorizontalScaling ∧
     dispatchMethod "VerticalScaling" = some .opVerticalScaling ∧
     dispatchMethod "VolumeExpansion" = some .opVolumeExpansion ∧
     dispatchMethod "Reconfiguring" = some .opReconfigure ∧
     dispatchMethod "Upgrade" = some .opUpgrade ∧
     dispatchMethod "Backup" = some .opBackup ∧
     dispatchMethod "Restore" = some .opRestore ∧
     dispatchMethod "Expose" = some .opExpose ∧
     dispatchMethod "RebuildInstance" = some .opRebuildInstance ∧
     dispatchMethod "Custom" = some .opCustom) ∧
    (∀ t, t ∉ knownOpTypes → dispatchMethod t = none) ∧
    (∀ env ops t c, env.fetchOps = .ok ops →
      ops.status.phase.isTerminal = false →
      env.fetchCluster = .ok c → env.providerRes = .ok () →
      env.updRunningErr = none → ops.spec.opType = t →
      t ∉ knownOpTypes →
      (∀ m, OpsEffect.delegateCall m ∉ (opsReconcile env).2) ∧
      (∃ s, OpsEffect.statusWrite s ∈ (opsReconcile env).2 ∧
        s.phase = .failed ∧
        s.message = "unsupported operation type: " ++ t)) ∧
    (∀ m cluster ops ctx, requiresPayload m = true →
      payloadPresent ops.spec m = false →
      cnpgRunOp m cluster ops ctx = (.error (payloadErrMsg m), [])) := by
  refine ⟨⟨rfl, rfl, rfl, rfl, rfl, rfl, rfl, rfl, rfl, rfl, rfl, rfl,
    rfl, rfl⟩, dispatchMethod_unknown, ?_, ?_⟩
  · intro env ops t c hf ht hc hp hr hm hu
    have hnone : dispatchMethod t = none := dispatchMethod_unknown t hu
    constructor
    · intro m' hm'
      cases hst : ops.status.phase.isStartable <;>
        simp [opsReconcile, hf, ht, hc, hp, hr, hst, hnone,
          updateStatusFailed, hm] at hm'
    · cases hst : ops.status.phase.isStartable
      · refine ⟨{ ops.status with
          phase := .failed,
          message := "unsupported operation type: " ++ t,
          completionTime := some env.now }, ?_, rfl, rfl⟩
        simp [opsReconcile, hf, ht, hc, hp, hr, hst, hnone,
          updateStatusFailed, hm]
      · refine ⟨{ ops.status with
          phase := .failed,
          message := "unsupported operation type: " ++ t,
          startTime := some env.now,
          completionTime := some env.now }, ?_, rfl, rfl⟩
        simp [opsReconcile, hf, ht, hc, hp, hr, hst, hnone,
          updateStatusFailed, hm]
  · intro m cluster ops ctx hreq hpay
    cases m
    case opStart => simp [requiresPayload] at hreq
    case opStop => simp [requiresPayload] at hreq
    case opRestart => simp [requiresPayload] at hreq
    case opSwitchover =>
      cases hv : ops.spec.switchover with
      | none => simp [cnpgRunOp, cnpgSwitchover, hv, payloadErrMsg]
      | some v => simp [payloadPresent, hv] at hpay
    case opHorizontalScaling =>
      cases hv : ops.spec.horizontalScaling with
      | none => simp [cnpgRunOp, cnpgHorizontalScaling, hv, payloadErrMsg]
      | some v => simp [payloadPresent, hv] at hpay
    case opVerticalScaling =>
      cases hv : ops.spec.verticalScaling with
      | none => simp [cnpgRunOp, cnpgVerticalScaling, hv, payloadErrMsg]
      | some v => simp [payloadPresent, hv] at hpay
    case opVolumeExpansion =>
      cases hv : ops.spec.volumeExpansion with
      | none => simp [cnpgRunOp, cnpgVolumeExpansion, hv, payloadErrMsg]
      | some v => simp [payloadPresent, hv] at hpay
    case opReconfigure =>
      cases hv : ops.spec.reconfiguring with
      | none => simp [cnpgRunOp, cnpgReconfigure, hv, payloadErrMsg]
      | some v => simp [payloadPresent, hv] at hpay
    case opUpgrade =>
      cases hv : ops.spec.upgrade with
      | none => simp [cnpgRunOp, cnpgUpgrade, hv, payloadErrMsg]
      | some v => simp [payloadPresent, hv] at hpay
    case opBackup => simp [requiresPayload] at hreq
    case opRestore =>
      cases hv : ops.spec.restore with
      | none => simp [cnpgRunOp, cnpgRestore, hv, payloadErrMsg]
      | some v => simp [payloadPresent, hv] at hpay
    case opExpose => simp [requiresPayload] at hreq
    case opRebuildInstance =>
      cases hv : ops.spec.rebuildInstance with
      | none => simp [cnpgRunOp, cnpgRebuildInstance, hv, payloadErrMsg]
      | some v => simp [payloadPresent, hv] at hpay
    case opCustom =>
      cases hv : ops.spec.custom with
      | none => simp [cnpgRunOp, cnpgCustom, hv, payloadErrMsg]
      | some v => simp [payloadPresent, hv] at hpay

/-- A child-system context for the C3 witness. -/
def c3Ctx : ChildCtx :=
  { fetch := .ok c9Child, updateErr := none, createErr := none, now := 0 }

/-- Witness for C3: an unknown type dispatches to no method, and a
switchover with no payload fails fast with no child-system call. -/
theorem c3_dispatch_witness :
    dispatchMethod "DoTheThing" = none ∧
    cnpgRunOp .opSwitchover baseCluster c2Ops c3Ctx =
      (.error "switchover spec is required", []) := by
  constructor
  · exact c3_dispatch.2.1 "DoTheThing" (by decide)
  · exact c3_dispatch.2.2.2 .opSwitchover baseCluster c2Ops c3Ctx rfl rfl

/-! ## C1: finalizer-gated teardown -/

/-- **C1**: in a pass over a ClusterRequest marked for deletion: when the
cleanup finalizer is absent, the pass performs no effect at all (no cleanup
call, no write to the record); any finalizer-removing record update the
pass performs is preceded by a cleanup call that returned without error and
removes exactly the cleanup finalizer; and when the finalizer is present
and the pass reaches the deletion handler (delegate resolved, no pre-hook
delay), the delegate's Cleanup is invoked. Hence the finalizer is never
removed before cleanup has been attempted. -/
theorem c1_finalizer_safety (env : ClusterEnv) (cluster : DatabaseCluster)
    (hf : env.fetchCluster = .ok cluster)
    (hdel : cluster.deletionTimestamp.isSome = true) :
    (containsString cluster.finalizers finalizerName = false →
      (clusterReconcile env).2 = []) ∧
    (∀ fs, ClusterEffect.recordUpdate fs ∈ (clusterReconcile env).2 →
      env.cleanupRes = .ok () ∧
      containsString cluster.finalizers finalizerName = true ∧
      fs = removeString cluster.finalizers finalizerName ∧
      (clusterReconcile env).2 = [.cleanupCall, .recordUpdate fs]) ∧
    (∀ k, containsString cluster.finalizers finalizerName = true →
      env.providerRes = .ok () → env.preHook = .ok k → ¬ k > 0 →
      ClusterEffect.cleanupCall ∈ (clusterReconcile env).2) := by
  have key : (clusterReconcile env).2 = [] ∨
      clusterReconcile env = handleDeletion env cluster := by
    unfold clusterReconcile
    rw [hf]
    cases hpr : env.providerRes with
    | error e => left; rfl
    | ok u =>
      cases hph : env.preHook with
      | error e => left; rfl
      | ok k =>
        by_cases hk : k > 0
        · left; simp [hk]
        · right; simp [hk, hdel]
  refine ⟨?_, ?_, ?_⟩
  · intro hfin
    rcases key with h | h
    · exact h
    · rw [h]; unfold handleDeletion; simp [hfin]
  · intro fs hmem
    rcases key with h | h
    · rw [h] at hmem; simp at hmem
    · have hmem' := hmem
      rw [h] at hmem'
      unfold handleDeletion at hmem'
      cases hfin : containsString cluster.finalizers finalizerName
      · simp [hfin] at hmem'
      · simp only [hfin] at hmem'
        simp only [if_true] at hmem'
        cases hcl : env.cleanupRes with
        | error _ => rw [hcl] at hmem'; simp at hmem'
        | ok u =>
          rw [hcl] at hmem'
          have hfs : fs = removeString cluster.finalizers finalizerName := by
            cases hre : env.recordUpdateErr <;> rw [hre] at hmem' <;>
              simpa using hmem'
          have heff : (clusterReconcile env).2 = [.cleanupCall,
              .recordUpdate (removeString cluster.finalizers finalizerName)] := by
            rw [h]
            unfold handleDeletion
            simp only [hfin, if_true]
            cases hre : env.recordUpdateErr <;> simp [hcl, hre]
          exact ⟨rfl, rfl, hfs, by rw [heff, hfs]⟩
  · intro k hfin hpr hph hk
    have hred : clusterReconcile env = handleDeletion env cluster := by
      simp [clusterReconcile, hf, hpr, hph, hk, hdel]
    rw [hred]
    unfold handleDeletion
    simp only [hfin, if_true]
    cases env.cleanupRes with
    | error e => simp
    | ok u => cases env.recordUpdateErr <;> simp

/-- A ClusterRequest marked for deletion and carrying the finalizer. -/
def c1Cluster : DatabaseCluster :=
  { baseCluster with
      finalizers := ["dbaas.io/finalizer"]
      deletionTimestamp := some 5 }

/-- A deletion pass over `c1Cluster` in which every call succeeds. -/
def c1Env : ClusterEnv :=
  { fetchCluster := .ok c1Cluster, providerRes := .ok (), preHook := .ok 0,
    cleanupRes := .ok (), getApplierRes := .ok (),
    stepRes := fun _ => .ok (), childCreateRes := .ok (),
    childUpdateRes := .ok (), statusMapper := .ok baseClusterStatus,
    statusUpdateErr := none, recordUpdateErr := none }

/-- Witness for C1: the deletion pass invokes the delegate's Cleanup. -/
theorem c1_finalizer_safety_witness :
    ClusterEffect.cleanupCall ∈ (clusterReconcile c1Env).2 :=
  (c1_finalizer_safety c1Env c1Cluster rfl rfl).2.2 0
    (by decide) rfl rfl (by decide)

/-! ## Pipeline lemmas shared by C4 and C5 -/

/-- When every step of the list succeeds, `runSteps` succeeds and runs
exactly the listed steps in order. -/
theorem runSteps_all_ok (res : StepName → Except String Unit)
    (l : List StepName) (h : ∀ x ∈ l, res x = .ok ()) :
    runSteps res l = (.ok (), l) := by
  induction l with
  | nil => rfl
  | cons a rest ih =>
    have ha : res a = .ok () := h a (by simp)
    simp [runSteps, ha, ih (fun x hx => h x (by simp [hx]))]

/-- When every step before `s` succeeds and `s` fails, `runSteps` stops at
`s`: it returns the wrapped error and runs exactly the earlier steps plus
`s`. -/
theorem runSteps_first_fail (res : StepName → Except String Unit)
    (l1 l2 : List StepName) (s : StepName) (e : String)
    (h1 : ∀ x ∈ l1, res x = .ok ()) (hs : res s = .error e) :
    runSteps res (l1 ++ s :: l2) = (.error (stepErrMsg s ++ e), l1 ++ [s]) := by
  induction l1 with
  | nil => simp [runSteps, hs]
  | cons a rest ih =>
    have ha : res a = .ok () := h1 a (by simp)
    simp [runSteps, ha, ih (fun x hx => h1 x (by simp [hx]))]

/-! ## C4: wholesale status replacement -/

/-- **C4**: a successful Cluster Controller pass writes the delegate's
status record verbatim as the request's whole status sub-resource: the pass
performs exactly one status write, its payload is exactly the mapper's
output (so fields the mapper leaves unset take the mapper's values rather
than surviving from a previous pass), and the pass is entirely independent
of the previously stored status. -/
theorem c4_status_wholesale (env : ClusterEnv) (s : DatabaseClusterStatus)
    (hm : env.statusMapper = .ok s) :
    (∀ cluster, env.fetchCluster = .ok cluster →
      cluster.deletionTimestamp = none →
      env.providerRes = .ok () → env.preHook = .ok 0 →
      env.recordUpdateErr = none → env.getApplierRes = .ok () →
      (∀ st, env.stepRes st = .ok ()) → env.childCreateRes = .ok () →
      env.statusUpdateErr = none →
      clusterReconcile env = (.requeueAfterSec 30,
        (if containsString cluster.finalizers finalizerName then []
         else [.recordUpdate (cluster.finalizers ++ [finalizerName])]) ++
        pipelineOrder.map .stepRun ++ [.childCreate, .statusWrite s]) ∧
      (∀ s', ClusterEffect.statusWrite s' ∈ (clusterReconcile env).2 →
        s' = s)) ∧
    (∀ cluster σ, env.fetchCluster = .ok cluster →
      clusterReconcile
          { env with fetchCluster := .ok { cluster with status := σ } } =
        clusterReconcile env) := by
  constructor
  · intro cluster hf hnd hp hh hru hga hsteps hcc hsu
    have htr : applyTransformations env.stepRes = (.ok (), pipelineOrder) :=
      runSteps_all_ok env.stepRes pipelineOrder (fun x _ => hsteps x)
    have main : clusterReconcile env = (.requeueAfterSec 30,
        (if containsString cluster.finalizers finalizerName then []
         else [.recordUpdate (cluster.finalizers ++ [finalizerName])]) ++
        pipelineOrder.map .stepRun ++ [.childCreate, .statusWrite s]) := by
      cases hcf : containsString cluster.finalizers finalizerName <;>
        simp [clusterReconcile, hf, hnd, hp, hh, hru, hga, htr, hcc, hsu,
          hm, hcf, createOrUpdateChildCluster, updateStatusCluster]
    refine ⟨main, ?_⟩
    intro s' hs'
    rw [main] at hs'
    cases hcf : containsString cluster.finalizers finalizerName <;>
      rw [hcf] at hs' <;> simp at hs' <;> exact hs'
  · intro cluster σ hf
    unfold clusterReconcile
    rw [hf]
    rfl

/-- A live ClusterRequest already carrying the finalizer. -/
def c4Cluster : DatabaseCluster :=
  { baseCluster with finalizers := ["dbaas.io/finalizer"] }

/-- The status the mapper reports in the C4 witness pass. -/
def c4Status : DatabaseClusterStatus :=
  { baseClusterStatus with phase := .ready, message := "healthy" }

/-- A fully successful pass over `c4Cluster`. -/
def c4Env : ClusterEnv :=
  { fetchCluster := .ok c4Cluster, providerRes := .ok (), preHook := .ok 0,
    cleanupRes := .ok (), getApplierRes := .ok (),
    stepRes := fun _ => .ok (), childCreateRes := .ok (),
    childUpdateRes := .ok (), statusMapper := .ok c4Status,
    statusUpdateErr := none, recordUpdateErr := none }

/-- Witness for C4: the successful pass writes exactly the mapper output. -/
theorem c4_status_wholesale_witness :
    clusterReconcile c4Env = (.requeueAfterSec 30,
      pipelineOrder.map .stepRun ++ [.childCreate, .statusWrite c4Status]) := by
  have h := ((c4_status_wholesale c4Env c4Status rfl).1 c4Cluster rfl rfl
    rfl rfl rfl rfl (fun _ => rfl) rfl rfl).1
  simpa using h

/-! ## C5: the pipeline aborts on the first failing step -/

/-- **C5**: when a step of the transformation pipeline fails, the pass
aborts at that step: the steps after it never run, the child record is
neither created nor updated, no status is written, and the pass returns the
failing step's wrapped error. -/
theorem c5_pipeline_abort (env : ClusterEnv) (cluster : DatabaseCluster)
    (l1 l2 : List StepName) (s : StepName) (e : String)
    (hf : env.fetchCluster = .ok cluster)
    (hnd : cluster.deletionTimestamp = none)
    (hp : env.providerRes = .ok ())
    (hh : env.preHook = .ok 0)
    (hru : env.recordUpdateErr = none)
    (hga : env.getApplierRes = .ok ())
    (hdecomp : pipelineOrder = l1 ++ s :: l2)
    (hok : ∀ x ∈ l1, env.stepRes x = .ok ())
    (hs : env.stepRes s = .error e) :
    clusterReconcile env = (.failure (stepErrMsg s ++ e),
      (if containsString cluster.finalizers finalizerName then []
       else [.recordUpdate (cluster.finalizers ++ [finalizerName])]) ++
      (l1 ++ [s]).map .stepRun) ∧
    ClusterEffect.childCreate ∉ (clusterReconcile env).2 ∧
    ClusterEffect.childUpdate ∉ (clusterReconcile env).2 ∧
    (∀ σ, ClusterEffect.statusWrite σ ∉ (clusterReconcile env).2) ∧
    (∀ x ∈ l2, ClusterEffect.stepRun x ∉ (clusterReconcile env).2) := by
  have htr : applyTransformations env.stepRes =
      (.error (stepErrMsg s ++ e), l1 ++ [s]) := by
    unfold applyTransformations
    rw [hdecomp]
    exact runSteps_first_fail env.stepRes l1 l2 s e hok hs
  have main : clusterReconcile env = (.failure (stepErrMsg s ++ e),
      (if containsString cluster.finalizers finalizerName then []
       else [.recordUpdate (cluster.finalizers ++ [finalizerName])]) ++
      (l1 ++ [s]).map .stepRun) := by
    cases hcf : containsString cluster.finalizers finalizerName <;>
      simp [clusterReconcile, hf, hnd, hp, hh, hru, hga, htr, hcf]
  have hnodup : (l1 ++ s :: l2).Nodup := by
    rw [← hdecomp]; decide
  refine ⟨main, ?_, ?_, ?_, ?_⟩
  · rw [main]
    cases hcf : containsString cluster.finalizers finalizerName <;>
      simp [hcf]
  · rw [main]
    cases hcf : containsString cluster.finalizers finalizerName <;>
      simp [hcf]
  · intro σ
    rw [main]
    cases hcf : containsString cluster.finalizers finalizerName <;>
      simp [hcf]
  · intro x hx
    rcases List.nodup_append.mp hnodup with ⟨_, hsl2, hdisj⟩
    have hxs : x ≠ s := by
      intro hxx
      exact (List.nodup_cons.mp hsl2).1 (hxx ▸ hx)
    have hxl1 : x ∉ l1 := fun hxl =>
      hdisj hxl (List.mem_cons_of_mem s hx)
    rw [main]
    cases hcf : containsString cluster.finalizers finalizerName <;>
      simp [hcf, hxl1, hxs]

/-- A pass over `c4Cluster` in which the engine step fails. -/
def c5Env : ClusterEnv :=
  { fetchCluster := .ok c4Cluster, providerRes := .ok (), preHook := .ok 0,
    cleanupRes := .ok (), getApplierRes := .ok (),
    stepRes := fun st => if st = .engine then .error "bad storage size"
      else .ok (),
    childCreateRes := .ok (), childUpdateRes := .ok (),
    statusMapper := .ok c4Status, statusUpdateErr := none,
    recordUpdateErr := none }

/-- Witness for C5: the engine-step failure aborts the pass after running
only metadata and engine, applying nothing. -/
theorem c5_pipeline_abort_witness :
    clusterReconcile c5Env =
      (.failure "failed to apply engine: bad storage size",
       [.stepRun .metadata, .stepRun .engine]) := by
  have h := (c5_pipeline_abort c5Env c4Cluster [.metadata]
    [.proxy, .monitoring, .podSchedulingPolicy, .backup, .dataSource,
     .dataImport] .engine "bad storage size" rfl rfl rfl rfl rfl rfl rfl
    (by intro x hx; rw [List.mem_singleton] at hx; subst hx; rfl) rfl).1
  simpa using h

end DBaaS
